import Mathlib

/-!
Verification of the Tileit roofing quote engine.

The quote engine of this repository is given in
`src/docs/roofing_quote_context.md` as Python-style pseudocode
(`calculate_quote`, `get_region_multiplier`).  This file embeds those
functions shallowly in Lean: Python floats become exact rationals (ℚ),
Python strings become `List Char` (so that every operation is structural
and kernel-evaluable), dict lookups with defaults become association-list
lookups with defaults, and Python's `round(x, 2)` (round-half-to-even on
the scaled value) becomes `round2` below.  The batch driver `run_batch`
does not appear in the repository sources and is modelled from the
specification where a claim needs it.
-/

namespace Tileit

/-- Strings of the embedded program, as character lists. -/
abbrev Str := List Char

/-- Python's `round(x, 2)`: scale by 100, round half to even, unscale.
On exact rationals this is banker's rounding of the cent value. -/
def round2 (x : ℚ) : ℚ :=
  let y := x * 100
  let n : ℤ := Int.floor y
  let r := y - n
  (if r < 1/2 then (n : ℚ) else if 1/2 < r then (n : ℚ) + 1
   else if n % 2 = 0 then (n : ℚ) else (n : ℚ) + 1) / 100

/-- `dict.get(key, default)` over an association list. -/
def lookupD (m : List (Str × ℚ)) (k : Str) (d : ℚ) : ℚ :=
  match m.find? (fun p => p.1 == k) with
  | some p => p.2
  | none => d

/-- Python's `s.lower()` (ASCII case folding, which covers every
material name the program uses). -/
def strLower (s : Str) : Str := s.map Char.toLower

/-- Python's `s.startswith(p)`. -/
def strStartsWith (s p : Str) : Bool := p.isPrefixOf s

/-- Python's `f.split()[0]`: the first whitespace-delimited token (all
field names the program splits start with a non-space character). -/
def firstToken (s : Str) : Str := s.takeWhile (fun c => c != ' ')

/-- `crew_scaling_rule` enum from the roofer profile
(`RooferOnboarding.formData.crew_scaling_rule`). -/
inductive CrewScalingRule where
  | size_only
  | size_and_complexity
  deriving DecidableEq, Repr

/-- The four fixed slope buckets of `slope_cost_adjustment`. -/
structure SlopeAdj where
  flat_low : ℚ
  moderate : ℚ
  steep : ℚ
  very_steep : ℚ
  deriving DecidableEq, Repr

/-- The roofer pricing profile (`roofer` argument of `calculate_quote`;
fields as in the onboarding form data and §3 of the context doc). -/
structure Roofer where
  labor_rate : ℚ
  daily_productivity : ℚ
  base_crew_size : ℕ
  crew_scaling_rule : CrewScalingRule
  slope_cost_adjustment : SlopeAdj
  material_costs : List (Str × ℚ)
  replacement_costs : List (Str × ℚ)
  overhead_percent : ℚ
  profit_margin : ℚ
  region_zip : Str
  deriving DecidableEq, Repr

/-- A raw CSV row (`row` argument of `calculate_quote`).  `none` models a
field that is absent (or null) so that `row.get(key, default)` falls back
to the default.  `repair` holds the named repair-area fields as
(field-name, value) pairs. -/
structure Row where
  roof_area : Option ℚ
  pitch : Option ℚ
  height_ft : Option ℚ
  roof_material : Option Str
  condition : Option ℚ
  repair : List (Str × ℚ)
  deriving DecidableEq, Repr

/-- The five primary fields after step 1 of `calculate_quote`
(extraction with defaults). -/
structure NormRecord where
  roof_area : ℚ
  pitch : ℚ
  height : ℚ
  roof_material : Str
  condition : ℚ
  deriving DecidableEq, Repr

/-- Step 1 of `calculate_quote`: `row.get("roof_area", 2500)` etc., with
the material name lower-cased. -/
def normalize (row : Row) : NormRecord :=
  { roof_area := row.roof_area.getD 2500
    pitch := row.pitch.getD 15
    height := row.height_ft.getD 15
    roof_material := strLower (row.roof_material.getD "asphalt".data)
    condition := row.condition.getD 80 }

/-- `high_cost_zips` from `get_region_multiplier`. -/
def high_cost_zips : List Str := ["100".data, "90".data, "94".data, "11".data]

/-- `low_cost_zips` from `get_region_multiplier`. -/
def low_cost_zips : List Str := ["83".data, "59".data, "35".data, "73".data]

/-- `get_region_multiplier` from the context doc: high-cost prefixes
first, then low-cost, else neutral. -/
def get_region_multiplier (zip_code : Str) : ℚ :=
  if high_cost_zips.any (fun p => strStartsWith zip_code p) then 125/100
  else if low_cost_zips.any (fun p => strStartsWith zip_code p) then 85/100
  else 1

/-- Step 3 of `calculate_quote`: dynamic crew size. -/
def crew_size_calc (base : ℕ) (area pitch height : ℚ) : ℕ :=
  let c := base
  let c := if area > 3000 then c + 1 else c
  let c := if area > 5000 then c + 1 else c
  if pitch > 30 ∨ height > 25 then c + 1 else c

/-- Step 5 of `calculate_quote`: slope bucket selection by pitch. -/
def slope_factor (adj : SlopeAdj) (slope : ℚ) : ℚ :=
  if slope ≤ 15 then adj.flat_low
  else if slope ≤ 30 then adj.moderate
  else if slope ≤ 45 then adj.steep
  else adj.very_steep

/-- The three fixed repair-area field names iterated by step 6. -/
def repairFields : List Str :=
  ["shingle repair area (sqm)".data, "tile repair area (sqm)".data,
   "metal repair area (sqm)".data]

/-- The body of the repair-cost loop of step 6: if field `f` is present
in the row and > 0, add `row[f] * replacement_costs.get(f.split()[0], 50)`
to the running total `acc`. -/
def repair_step_fn (roofer : Roofer) (row : Row) (acc : ℚ) (f : Str) : ℚ :=
  match row.repair.find? (fun p => p.1 == f) with
  | some pv =>
      if pv.2 > 0 then
        acc + pv.2 * lookupD roofer.replacement_costs (firstToken f) 50
      else acc
  | none => acc

/-- Step 6 of `calculate_quote`: the repair-cost loop over the three
fixed field names. -/
def repair_cost_calc (roofer : Roofer) (row : Row) : ℚ :=
  repairFields.foldl (repair_step_fn roofer row) 0

/-- The itemized result of one calculation (the pseudocode returns the
quote range; the intermediates are the named quantities it computes). -/
structure QuoteResult where
  roof_material : Str
  pitch : ℚ
  roof_area : ℚ
  crew_size_used : ℕ
  material_cost : ℚ
  labor_hours : ℚ
  labor_cost : ℚ
  repair_cost : ℚ
  region_multiplier : ℚ
  subtotal : ℚ
  overhead : ℚ
  profit : ℚ
  total : ℚ
  quote_low : ℚ
  quote_high : ℚ
  deriving DecidableEq, Repr

/-- `calculate_quote(row, roofer)` from the context doc, steps 1–9. -/
def calculate_quote (row : Row) (roofer : Roofer) : QuoteResult :=
  let n := normalize row
  let area := n.roof_area
  let pitch := n.pitch
  let height := n.height
  let material := n.roof_material
  let region := roofer.region_zip
  let material_cost := area * lookupD roofer.material_costs material 5
  let crew_size := crew_size_calc roofer.base_crew_size area pitch height
  let hours := (area / roofer.daily_productivity) * 8
  let labor_base := hours * roofer.labor_rate * (crew_size : ℚ)
  let labor_cost := labor_base * (1 + slope_factor roofer.slope_cost_adjustment pitch)
  let repair_cost := repair_cost_calc roofer row
  let regional_multiplier := get_region_multiplier region
  let subtotal := (material_cost + labor_cost + repair_cost) * regional_multiplier
  let overhead := subtotal * roofer.overhead_percent
  let profit := (subtotal + overhead) * roofer.profit_margin
  let total := subtotal + overhead + profit
  { roof_material := material
    pitch := pitch
    roof_area := area
    crew_size_used := crew_size
    material_cost := material_cost
    labor_hours := hours
    labor_cost := labor_cost
    repair_cost := repair_cost
    region_multiplier := regional_multiplier
    subtotal := subtotal
    overhead := overhead
    profit := profit
    total := total
    quote_low := round2 (total * (9/10))
    quote_high := round2 (total * (115/100)) }

end Tileit

namespace Tileit

/-! ### Helper lemmas about rounding -/

theorem round2_eq_of_mul_int (x : ℚ) (n : ℤ) (h : x * 100 = n) : round2 x = n / 100 := by
  unfold round2
  rw [h]
  norm_num

theorem round2_le_add (x : ℚ) : round2 x ≤ x + 1/200 := by
  have h1 := Int.floor_le (x * 100)
  have h2 := Int.lt_floor_add_one (x * 100)
  simp only [round2]
  split_ifs <;> rw [div_le_iff₀ (by norm_num : (0:ℚ) < 100)] <;> linarith

theorem sub_le_round2 (x : ℚ) : x - 1/200 ≤ round2 x := by
  have h1 := Int.floor_le (x * 100)
  have h2 := Int.lt_floor_add_one (x * 100)
  simp only [round2]
  split_ifs <;> rw [le_div_iff₀ (by norm_num : (0:ℚ) < 100)] <;> linarith

/-! ### Helper lemmas about the calculator pieces -/

theorem crew_size_calc_eq (base : ℕ) (a p h : ℚ) :
    crew_size_calc base a p h =
      base + (if a > 3000 then 1 else 0) + (if a > 5000 then 1 else 0) +
        (if p > 30 ∨ h > 25 then 1 else 0) := by
  simp only [crew_size_calc]
  split_ifs <;> omega

/-- One iteration of the repair-cost loop, as a standalone amount. -/
def repairTerm (roofer : Roofer) (row : Row) (f mat : Str) : ℚ :=
  match row.repair.find? (fun p => p.1 == f) with
  | some pv => if pv.2 > 0 then pv.2 * lookupD roofer.replacement_costs mat 50 else 0
  | none => 0

theorem repair_step (roofer : Roofer) (row : Row) (acc : ℚ) (f : Str) :
    repair_step_fn roofer row acc f = acc + repairTerm roofer row f (firstToken f) := by
  unfold repair_step_fn repairTerm
  cases hf : row.repair.find? (fun p => p.1 == f) with
  | none => simp
  | some pv =>
      by_cases hv : pv.2 > 0 <;> simp [hv]

theorem repair_step_fn_cons (roofer : Roofer) (row : Row) (g : Str) (v : ℚ) (f : Str)
    (acc : ℚ) (h : (g == f) = false) :
    repair_step_fn roofer { row with repair := (g, v) :: row.repair } acc f =
      repair_step_fn roofer row acc f := by
  unfold repair_step_fn
  simp only [List.find?_cons, h]

/-! ### The worked example of §8 of the specification -/

/-- The example profile of the end-to-end test property: `labor_rate=45`,
`daily_productivity=2500`, `base_crew_size=3`, `overhead_percent=0.1`,
`profit_margin=0.2`, `material_costs.concrete=6.0`, moderate slope
surcharge `0.1`, business ZIP `z`. -/
def exProfile (z : Str) : Roofer :=
  { labor_rate := 45, daily_productivity := 2500, base_crew_size := 3
    crew_scaling_rule := .size_and_complexity
    slope_cost_adjustment := ⟨0, 1/10, 2/10, 3/10⟩
    material_costs := [("concrete".data, 6)]
    replacement_costs := []
    overhead_percent := 1/10, profit_margin := 2/10
    region_zip := z }

/-- The example record: `roof_area=2500`, `pitch=24.43`, `height=15`,
`roof_material="concrete"`, `condition_score=80`, no repair areas. -/
def exRow : Row :=
  { roof_area := some 2500, pitch := some (2443/100), height_ft := some 15
    roof_material := some "concrete".data, condition := some 80, repair := [] }

/-- The expected itemized result for the example. -/
def exQuote : QuoteResult :=
  { roof_material := "concrete".data, pitch := 2443/100, roof_area := 2500
    crew_size_used := 3, material_cost := 15000, labor_hours := 8
    labor_cost := 1188, repair_cost := 0, region_multiplier := 125/100
    subtotal := 20235, overhead := 20235/10, profit := 44517/10
    total := 267102/10, quote_low := 2403918/100, quote_high := 3071673/100 }

theorem ex_eval (z : Str) (hz : strStartsWith z "100".data = true) :
    calculate_quote exRow (exProfile z) = exQuote := by
  have hnorm : normalize exRow = ⟨2500, 2443/100, 15, "concrete".data, 80⟩ := by
    simp [normalize, exRow]
    decide
  have hregion : get_region_multiplier z = 125/100 := by
    unfold get_region_multiplier
    have h : high_cost_zips.any (fun p => strStartsWith z p) = true := by
      simp only [high_cost_zips, List.any_cons, hz, Bool.true_or]
    rw [h]
    simp
  have hrepair : ∀ r : Roofer, repair_cost_calc r exRow = 0 := fun r => rfl
  have hlook : lookupD [("concrete".data, (6:ℚ))] "concrete".data 5 = 6 := by
    simp [lookupD]
  have hcrew : crew_size_calc 3 2500 (2443/100) 15 = 3 := by
    norm_num [crew_size_calc]
  have hslope : slope_factor ⟨0, 1/10, 2/10, 3/10⟩ (2443/100) = 1/10 := by
    norm_num [slope_factor]
  simp only [calculate_quote, exProfile, exQuote, hnorm, hregion, hrepair, hlook, hcrew,
    hslope, QuoteResult.mk.injEq, true_and, and_true]
  refine ⟨by norm_num, by norm_num, by norm_num, by norm_num, by norm_num, by norm_num,
    by norm_num, ?_, ?_⟩
  · rw [round2_eq_of_mul_int _ 2403918 (by norm_num)]
    norm_num
  · rw [round2_eq_of_mul_int _ 3071673 (by norm_num)]
    norm_num

end Tileit

namespace Tileit

/-- C1: For the profile with labor_rate=45, daily_productivity=2500,
base_crew_size=3, overhead_percent=0.1, profit_margin=0.2,
material_costs.concrete=6.0, moderate slope surcharge 0.1, and a business
ZIP starting with "100", applied to the record roof_area=2500,
pitch=24.43, height=15, roof_material="concrete", condition_score=80 with
no repair areas, calculate returns crew_size_used=3, material_cost=15000,
labor_hours=8, base labor 1080, slope-adjusted labor 1188, repair_cost=0,
region multiplier 1.25, subtotal 20235, overhead 2023.5, profit 4451.7,
total 26710.2, and quote range (24039.18, 30716.73). -/
theorem c1_end_to_end_example (z : Str) (hz : strStartsWith z "100".data = true) :
    (calculate_quote exRow (exProfile z)).crew_size_used = 3 ∧
    (calculate_quote exRow (exProfile z)).material_cost = 15000 ∧
    (calculate_quote exRow (exProfile z)).labor_hours = 8 ∧
    (calculate_quote exRow (exProfile z)).labor_hours * (exProfile z).labor_rate *
      ((calculate_quote exRow (exProfile z)).crew_size_used : ℚ) = 1080 ∧
    (calculate_quote exRow (exProfile z)).labor_cost = 1188 ∧
    (calculate_quote exRow (exProfile z)).repair_cost = 0 ∧
    (calculate_quote exRow (exProfile z)).region_multiplier = 125/100 ∧
    (calculate_quote exRow (exProfile z)).subtotal = 20235 ∧
    (calculate_quote exRow (exProfile z)).overhead = 20235/10 ∧
    (calculate_quote exRow (exProfile z)).profit = 44517/10 ∧
    (calculate_quote exRow (exProfile z)).total = 267102/10 ∧
    (calculate_quote exRow (exProfile z)).quote_low = 2403918/100 ∧
    (calculate_quote exRow (exProfile z)).quote_high = 3071673/100 := by
  rw [ex_eval z hz]
  norm_num [exQuote, exProfile]

/-- Witness for C1 at the concrete business ZIP "10001". -/
theorem c1_end_to_end_example_witness :
    strStartsWith "10001".data "100".data = true ∧
    (calculate_quote exRow (exProfile "10001".data)).total = 267102/10 :=
  ⟨by decide, (c1_end_to_end_example "10001".data (by decide)).2.2.2.2.2.2.2.2.2.2.1⟩

/-- C9: For every profile and record, the result of calculate is
identical when the profile's crew_scaling_rule is size_only and when it
is size_and_complexity: the two enum values produce the same
computation. -/
theorem c9_crew_scaling_rule_equivalent (roofer : Roofer) (row : Row) :
    calculate_quote row { roofer with crew_scaling_rule := .size_only } =
      calculate_quote row { roofer with crew_scaling_rule := .size_and_complexity } := by
  cases roofer
  rfl

/-- C10: Two runs of calculate on records that differ only in
condition_score produce identical outputs: the condition score is read
during extraction but never influences any cost component, the crew
size, the total, or the quote range. -/
theorem c10_condition_score_no_influence (roofer : Roofer) (row : Row)
    (c₁ c₂ : Option ℚ) :
    calculate_quote { row with condition := c₁ } roofer =
      calculate_quote { row with condition := c₂ } roofer := by
  cases row
  rfl

/-- C3: For every normalized record, crew_size_used equals base_crew_size
plus 1 if roof_area > 3000, plus 1 more if roof_area > 5000, plus
exactly 1 more if pitch > 30 or height > 25 (at most one increment for
the pitch/height condition); consequently
crew_size_used >= base_crew_size for all records. -/
theorem c3_crew_sizing (roofer : Roofer) (row : Row) :
    (calculate_quote row roofer).crew_size_used =
      roofer.base_crew_size + (if (normalize row).roof_area > 3000 then 1 else 0) +
        (if (normalize row).roof_area > 5000 then 1 else 0) +
        (if (normalize row).pitch > 30 ∨ (normalize row).height > 25 then 1 else 0) ∧
    roofer.base_crew_size ≤ (calculate_quote row roofer).crew_size_used := by
  have h : (calculate_quote row roofer).crew_size_used =
      crew_size_calc roofer.base_crew_size (normalize row).roof_area
        (normalize row).pitch (normalize row).height := rfl
  rw [h, crew_size_calc_eq]
  refine ⟨rfl, ?_⟩
  split_ifs <;> omega

end Tileit

namespace Tileit

/-- C4: The slope bucket is selected by pitch with inclusive upper
bounds — pitch <= 15 uses flat_low, 15 < pitch <= 30 uses moderate,
30 < pitch <= 45 uses steep, pitch > 45 uses very_steep — and the labor
cost is multiplied by (1 + bucket_fraction); in particular pitch = 15.0
uses flat_low, 15.01 uses moderate, 45.0 uses steep, 45.01 uses
very_steep. -/
theorem c4_slope_buckets (adj : SlopeAdj) (p : ℚ) (roofer : Roofer) (row : Row) :
    (p ≤ 15 → slope_factor adj p = adj.flat_low) ∧
    (15 < p → p ≤ 30 → slope_factor adj p = adj.moderate) ∧
    (30 < p → p ≤ 45 → slope_factor adj p = adj.steep) ∧
    (45 < p → slope_factor adj p = adj.very_steep) ∧
    slope_factor adj 15 = adj.flat_low ∧
    slope_factor adj (1501/100) = adj.moderate ∧
    slope_factor adj 45 = adj.steep ∧
    slope_factor adj (4501/100) = adj.very_steep ∧
    (calculate_quote row roofer).labor_cost =
      (calculate_quote row roofer).labor_hours * roofer.labor_rate *
        ((calculate_quote row roofer).crew_size_used : ℚ) *
        (1 + slope_factor roofer.slope_cost_adjustment (normalize row).pitch) := by
  refine ⟨?_, ?_, ?_, ?_, ?_, ?_, ?_, ?_, rfl⟩
  · intro h
    unfold slope_factor
    rw [if_pos h]
  · intro h1 h2
    unfold slope_factor
    rw [if_neg (not_le.mpr h1), if_pos h2]
  · intro h1 h2
    unfold slope_factor
    rw [if_neg (not_le.mpr (by linarith)), if_neg (not_le.mpr h1), if_pos h2]
  · intro h
    unfold slope_factor
    rw [if_neg (not_le.mpr (by linarith)), if_neg (not_le.mpr (by linarith)),
      if_neg (not_le.mpr h)]
  · norm_num [slope_factor]
  · norm_num [slope_factor]
  · norm_num [slope_factor]
  · norm_num [slope_factor]

/-- Witness for C4 at concrete pitches 10, 20, 40 and 50. -/
theorem c4_slope_buckets_witness :
    slope_factor ⟨1, 2, 3, 4⟩ 10 = 1 ∧ slope_factor ⟨1, 2, 3, 4⟩ 20 = 2 ∧
    slope_factor ⟨1, 2, 3, 4⟩ 40 = 3 ∧ slope_factor ⟨1, 2, 3, 4⟩ 50 = 4 :=
  ⟨(c4_slope_buckets ⟨1, 2, 3, 4⟩ 10 (exProfile "".data) exRow).1 (by norm_num),
   (c4_slope_buckets ⟨1, 2, 3, 4⟩ 20 (exProfile "".data) exRow).2.1 (by norm_num) (by norm_num),
   (c4_slope_buckets ⟨1, 2, 3, 4⟩ 40 (exProfile "".data) exRow).2.2.1 (by norm_num) (by norm_num),
   (c4_slope_buckets ⟨1, 2, 3, 4⟩ 50 (exProfile "".data) exRow).2.2.2.1 (by norm_num)⟩

/-- C5: For every input string, the region multiplier resolver is total
and returns 1.25 if the ZIP's string form starts with any high-cost
prefix, else 0.85 if it starts with any low-cost prefix, else 1.0;
high-cost precedence holds even for a ZIP matchable by both lists, and
malformed or empty ZIP values yield 1.0 rather than an error. -/
theorem c5_region_multiplier (z : Str) :
    (high_cost_zips.any (fun p => strStartsWith z p) = true →
      get_region_multiplier z = 125/100) ∧
    (high_cost_zips.any (fun p => strStartsWith z p) = false →
      low_cost_zips.any (fun p => strStartsWith z p) = true →
      get_region_multiplier z = 85/100) ∧
    (high_cost_zips.any (fun p => strStartsWith z p) = false →
      low_cost_zips.any (fun p => strStartsWith z p) = false →
      get_region_multiplier z = 1) ∧
    get_region_multiplier "".data = 1 := by
  refine ⟨?_, ?_, ?_, rfl⟩
  · intro h
    unfold get_region_multiplier
    rw [h]
    simp
  · intro h1 h2
    unfold get_region_multiplier
    rw [h1, h2]
    simp
  · intro h1 h2
    unfold get_region_multiplier
    rw [h1, h2]
    simp

/-- Witness for C5: a high-cost ZIP, a low-cost ZIP and an unmatched
ZIP. -/
theorem c5_region_multiplier_witness :
    get_region_multiplier "10001".data = 125/100 ∧
    get_region_multiplier "83001".data = 85/100 ∧
    get_region_multiplier "50000".data = 1 :=
  ⟨(c5_region_multiplier "10001".data).1 (by decide),
   (c5_region_multiplier "83001".data).2.1 (by decide) (by decide),
   (c5_region_multiplier "50000".data).2.2.1 (by decide) (by decide)⟩

end Tileit

namespace Tileit

/-- C7: Repair cost is computed only over the three fixed repair-area
fields for shingle, tile, and metal: for each such field that is present
in the record and strictly greater than 0, area * rate is added to the
repair total, where rate is that material's entry in replacement_costs
or 50 if absent; repair-area fields for any other material are ignored
even when present. -/
theorem c7_repair_cost (roofer : Roofer) (row : Row) :
    (calculate_quote row roofer).repair_cost = repair_cost_calc roofer row ∧
    repair_cost_calc roofer row =
      repairTerm roofer row "shingle repair area (sqm)".data "shingle".data +
        repairTerm roofer row "tile repair area (sqm)".data "tile".data +
        repairTerm roofer row "metal repair area (sqm)".data "metal".data ∧
    ∀ g v, g ∉ repairFields →
      repair_cost_calc roofer { row with repair := (g, v) :: row.repair } =
        repair_cost_calc roofer row := by
  refine ⟨rfl, ?_, ?_⟩
  · unfold repair_cost_calc repairFields
    simp only [List.foldl_cons, List.foldl_nil]
    rw [repair_step, repair_step, repair_step]
    rw [show firstToken "shingle repair area (sqm)".data = "shingle".data from by decide]
    rw [show firstToken "tile repair area (sqm)".data = "tile".data from by decide]
    rw [show firstToken "metal repair area (sqm)".data = "metal".data from by decide]
    ring
  · intro g v hg
    have hne : ∀ f ∈ repairFields, (g == f) = false := by
      intro f hf
      rw [beq_eq_false_iff_ne]
      intro he
      exact hg (he ▸ hf)
    have h1 := hne "shingle repair area (sqm)".data (by simp [repairFields])
    have h2 := hne "tile repair area (sqm)".data (by simp [repairFields])
    have h3 := hne "metal repair area (sqm)".data (by simp [repairFields])
    unfold repair_cost_calc repairFields
    simp only [List.foldl_cons, List.foldl_nil]
    rw [repair_step_fn_cons roofer row g v _ _ h1]
    rw [repair_step_fn_cons roofer row g v _ _ h2]
    rw [repair_step_fn_cons roofer row g v _ _ h3]

/-- Witness for C7: a record with a shingle repair area, a metal repair
area that is zero, and an extra repair field of an unlisted material. -/
theorem c7_repair_cost_witness :
    "slate repair area (sqm)".data ∉ repairFields ∧
    repair_cost_calc (exProfile "".data)
        { exRow with repair := [("slate repair area (sqm)".data, 7)] } =
      repair_cost_calc (exProfile "".data) exRow :=
  ⟨by decide,
   (c7_repair_cost (exProfile "".data) exRow).2.2 "slate repair area (sqm)".data 7 (by decide)⟩

/-- C8: Normalization is total and, for each of the five primary fields
(roof_area, pitch, height, roof_material, condition_score), substitutes
the documented default (2500, 15, 15, "asphalt", 80 respectively)
whenever the field is absent or null, and lower-cases the material name
for all downstream lookups. -/
theorem c8_normalize_defaults (row : Row) :
    (row.roof_area = none → (normalize row).roof_area = 2500) ∧
    (∀ v, row.roof_area = some v → (normalize row).roof_area = v) ∧
    (row.pitch = none → (normalize row).pitch = 15) ∧
    (∀ v, row.pitch = some v → (normalize row).pitch = v) ∧
    (row.height_ft = none → (normalize row).height = 15) ∧
    (∀ v, row.height_ft = some v → (normalize row).height = v) ∧
    (row.roof_material = none → (normalize row).roof_material = "asphalt".data) ∧
    (∀ s, row.roof_material = some s → (normalize row).roof_material = strLower s) ∧
    (row.condition = none → (normalize row).condition = 80) ∧
    (∀ v, row.condition = some v → (normalize row).condition = v) := by
  refine ⟨fun h => ?_, fun v h => ?_, fun h => ?_, fun v h => ?_, fun h => ?_,
    fun v h => ?_, fun h => ?_, fun s h => ?_, fun h => ?_, fun v h => ?_⟩
  all_goals simp [normalize, h]
  all_goals decide

/-- Witness for C8: an all-absent record takes every default; a record
with an upper-case material has it lower-cased. -/
theorem c8_normalize_defaults_witness :
    (normalize ⟨none, none, none, none, none, []⟩).roof_area = 2500 ∧
    (normalize ⟨none, none, none, none, none, []⟩).pitch = 15 ∧
    (normalize ⟨none, none, none, none, none, []⟩).height = 15 ∧
    (normalize ⟨none, none, none, none, none, []⟩).roof_material = "asphalt".data ∧
    (normalize ⟨none, none, none, none, none, []⟩).condition = 80 ∧
    (normalize ⟨none, none, none, some "Tile".data, none, []⟩).roof_material =
      strLower "Tile".data :=
  ⟨(c8_normalize_defaults ⟨none, none, none, none, none, []⟩).1 rfl,
   (c8_normalize_defaults ⟨none, none, none, none, none, []⟩).2.2.1 rfl,
   (c8_normalize_defaults ⟨none, none, none, none, none, []⟩).2.2.2.2.1 rfl,
   (c8_normalize_defaults ⟨none, none, none, none, none, []⟩).2.2.2.2.2.2.1 rfl,
   (c8_normalize_defaults ⟨none, none, none, none, none, []⟩).2.2.2.2.2.2.2.2.1 rfl,
   (c8_normalize_defaults ⟨none, none, none, some "Tile".data, none, []⟩).2.2.2.2.2.2.2.1
     "Tile".data rfl⟩

end Tileit

namespace Tileit

theorem round2_eq_succ_of_gt_half (x : ℚ) (n : ℤ) (h1 : (n : ℚ) ≤ x * 100)
    (h2 : x * 100 < (n : ℚ) + 1) (h3 : 1/2 < x * 100 - (n : ℚ)) :
    round2 x = ((n : ℚ) + 1) / 100 := by
  have hf : Int.floor (x * 100) = n := by
    rw [Int.floor_eq_iff]
    constructor
    · exact_mod_cast h1
    · linarith
  simp only [round2, hf]
  rw [if_neg (by linarith), if_pos (by linarith)]

/-- C2 (amended): for every profile and record, quote_range.low =
round(total * 0.90, 2) and quote_range.high = round(total * 1.15, 2);
and whenever the total is 0 or at least 0.05, low <= total <= high.
(For totals strictly between 0 and five cents, rounding to whole cents
can push a bound past the total, so the ordering clause needs the
size hypothesis; see the counterexample.) -/
theorem c2_quote_range (roofer : Roofer) (row : Row) :
    (calculate_quote row roofer).quote_low =
      round2 ((calculate_quote row roofer).total * (9/10)) ∧
    (calculate_quote row roofer).quote_high =
      round2 ((calculate_quote row roofer).total * (115/100)) ∧
    ((calculate_quote row roofer).total = 0 ∨
        1/20 ≤ (calculate_quote row roofer).total →
      (calculate_quote row roofer).quote_low ≤ (calculate_quote row roofer).total ∧
        (calculate_quote row roofer).total ≤ (calculate_quote row roofer).quote_high) := by
  have hl : (calculate_quote row roofer).quote_low =
      round2 ((calculate_quote row roofer).total * (9/10)) := rfl
  have hh : (calculate_quote row roofer).quote_high =
      round2 ((calculate_quote row roofer).total * (115/100)) := rfl
  refine ⟨hl, hh, ?_⟩
  rintro (h0 | h5)
  · have e1 : round2 ((0:ℚ) * (9/10)) = 0 := by
      rw [round2_eq_of_mul_int _ 0 (by norm_num)]
      norm_num
    have e2 : round2 ((0:ℚ) * (115/100)) = 0 := by
      rw [round2_eq_of_mul_int _ 0 (by norm_num)]
      norm_num
    rw [hl, hh, h0, e1, e2]
    exact ⟨le_refl 0, le_refl 0⟩
  · constructor
    · rw [hl]
      have := round2_le_add ((calculate_quote row roofer).total * (9/10))
      linarith
    · rw [hh]
      have := sub_le_round2 ((calculate_quote row roofer).total * (115/100))
      linarith

/-- Witness for C2 (amended) on the worked example. -/
theorem c2_quote_range_witness :
    (1/20 ≤ (calculate_quote exRow (exProfile "10001".data)).total) ∧
    ((calculate_quote exRow (exProfile "10001".data)).quote_low ≤
        (calculate_quote exRow (exProfile "10001".data)).total ∧
      (calculate_quote exRow (exProfile "10001".data)).total ≤
        (calculate_quote exRow (exProfile "10001".data)).quote_high) := by
  have hhyp : (1:ℚ)/20 ≤ (calculate_quote exRow (exProfile "10001".data)).total := by
    rw [ex_eval "10001".data (by decide)]
    norm_num [exQuote]
  exact ⟨hhyp, (c2_quote_range (exProfile "10001".data) exRow).2.2 (Or.inr hhyp)⟩

/-- A profile with an empty material map and neutral region, used to
exhibit a sub-cent total. -/
def tinyProfile : Roofer :=
  { labor_rate := 45, daily_productivity := 2500, base_crew_size := 3
    crew_scaling_rule := .size_and_complexity
    slope_cost_adjustment := ⟨0, 1/10, 2/10, 3/10⟩
    material_costs := [], replacement_costs := []
    overhead_percent := 1/10, profit_margin := 2/10
    region_zip := "".data }

/-- A record whose roof area is one thousandth of an area unit, making
the total 0.00717024 — below one cent. -/
def tinyRow : Row :=
  { roof_area := some (1/1000), pitch := none, height_ft := none
    roof_material := none, condition := none, repair := [] }

/-- Counterexample to C2 as stated: for `tinyProfile` and `tinyRow` the
total is 0.00717024 but the low bound rounds up to 0.01, so
quote_range.low > total and the claimed ordering low <= total fails. -/
theorem c2_quote_range_counterexample :
    (calculate_quote tinyRow tinyProfile).total <
      (calculate_quote tinyRow tinyProfile).quote_low := by
  have hnorm : normalize tinyRow = ⟨1/1000, 15, 15, "asphalt".data, 80⟩ := by
    simp [normalize, tinyRow]
    decide
  have hregion : get_region_multiplier "".data = 1 := rfl
  have hrepair : ∀ r : Roofer, repair_cost_calc r tinyRow = 0 := fun r => rfl
  have hlook : lookupD ([] : List (Str × ℚ)) "asphalt".data 5 = 5 := rfl
  have hcrew : crew_size_calc 3 (1/1000) 15 15 = 3 := by norm_num [crew_size_calc]
  have hslope : slope_factor ⟨0, 1/10, 2/10, 3/10⟩ 15 = 0 := by norm_num [slope_factor]
  simp only [calculate_quote, tinyProfile, hnorm, hregion, hrepair, hlook, hcrew, hslope]
  norm_num
  rw [round2_eq_succ_of_gt_half ((201663:ℚ)/31250000) 0 (by norm_num) (by norm_num)
    (by norm_num)]
  norm_num

end Tileit

namespace Tileit

/-- Modelled from the spec: the batch driver `run_batch` of §4.4 is not
in the repository sources (only described in the specification).
Per-record validation — "malformed numeric field, missing required
identifying address" — is abstracted as a `validate` function producing
either a calculable row or a failure reason; the driver walks the
records in input order carrying the running index, appends each success
to the result list and each failure, tagged with its originating index,
to the error list, and continues with the next record. -/
def run_batch_aux {α : Type} (validate : α → Except String Row) (roofer : Roofer) :
    ℕ → List α → List QuoteResult × List (ℕ × String)
  | _, [] => ([], [])
  | i, a :: rest =>
    let r := run_batch_aux validate roofer (i + 1) rest
    match validate a with
    | .ok row => (calculate_quote row roofer :: r.1, r.2)
    | .error e => (r.1, (i, e) :: r.2)

/-- Modelled from the spec: `run_batch(profile, raw_records)` of §4.4,
starting the record index at 0. -/
def run_batch {α : Type} (validate : α → Except String Row) (roofer : Roofer)
    (records : List α) : List QuoteResult × List (ℕ × String) :=
  run_batch_aux validate roofer 0 records

theorem except_toOption_ok {ε α : Type} (a : α) :
    (Except.ok a : Except ε α).toOption = some a := rfl

theorem except_toOption_error {ε α : Type} (e : ε) :
    (Except.error e : Except ε α).toOption = none := rfl

theorem run_batch_aux_all_ok {α : Type} (v : α → Except String Row) (p : Roofer)
    (l : List α) (i : ℕ)
    (h : ∀ j (hj : j < l.length), ∃ row, v l[j] = .ok row) :
    run_batch_aux v p i l =
      (l.filterMap (fun a => (v a).toOption.map (fun row => calculate_quote row p)), []) := by
  induction l generalizing i with
  | nil => rfl
  | cons a rest ih =>
      obtain ⟨row, hrow⟩ := h 0 (by simp)
      simp only [List.getElem_cons_zero] at hrow
      simp only [run_batch_aux]
      rw [hrow]
      rw [ih (i + 1) (fun j hj => by simpa using h (j + 1) (by simpa using hj))]
      simp [List.filterMap_cons, hrow, except_toOption_ok]

theorem run_batch_aux_one_fail {α : Type} (v : α → Except String Row) (p : Roofer)
    (e : String) (l : List α) :
    ∀ (i k : ℕ) (hk : k < l.length), v l[k] = .error e →
      (∀ j (hj : j < l.length), j ≠ k → ∃ row, v l[j] = .ok row) →
      run_batch_aux v p i l =
        (l.filterMap (fun a => (v a).toOption.map (fun row => calculate_quote row p)),
         [(i + k, e)]) := by
  induction l with
  | nil =>
      intro i k hk
      simp at hk
  | cons a rest ih =>
      intro i k hk he hok
      cases k with
      | zero =>
          simp only [List.getElem_cons_zero] at he
          simp only [run_batch_aux]
          rw [he]
          rw [run_batch_aux_all_ok v p rest (i + 1)
            (fun j hj => by simpa using hok (j + 1) (by simpa using hj) (by omega))]
          simp [List.filterMap_cons, he, except_toOption_error]
      | succ n =>
          have hk' : n < rest.length := by
            simp only [List.length_cons] at hk
            omega
          obtain ⟨row, hrow⟩ := hok 0 (by simp) (by omega)
          simp only [List.getElem_cons_zero] at hrow
          simp only [List.getElem_cons_succ] at he
          have hok' : ∀ j (hj : j < rest.length), j ≠ n → ∃ row, v rest[j] = .ok row := by
            intro j hj hne
            have h := hok (j + 1) (by simp only [List.length_cons]; omega) (by omega)
            simpa using h
          simp only [run_batch_aux]
          rw [hrow]
          rw [show i + (n + 1) = (i + 1) + n from by omega]
          rw [ih (i + 1) n hk' he hok']
          simp [List.filterMap_cons, hrow, except_toOption_ok]

theorem filterMap_length_all_ok {α : Type} (v : α → Except String Row) (p : Roofer)
    (l : List α) (h : ∀ j (hj : j < l.length), ∃ row, v l[j] = .ok row) :
    (l.filterMap (fun a => (v a).toOption.map (fun row => calculate_quote row p))).length =
      l.length := by
  induction l with
  | nil => rfl
  | cons a rest ih =>
      obtain ⟨row, hrow⟩ := h 0 (by simp)
      simp only [List.getElem_cons_zero] at hrow
      simp only [List.filterMap_cons, hrow, except_toOption_ok, Option.map_some',
        List.length_cons]
      rw [ih (fun j hj => by simpa using h (j + 1) (by simpa using hj))]

theorem filterMap_length_one_fail {α : Type} (v : α → Except String Row) (p : Roofer)
    (e : String) (l : List α) :
    ∀ (k : ℕ) (hk : k < l.length), v l[k] = .error e →
      (∀ j (hj : j < l.length), j ≠ k → ∃ row, v l[j] = .ok row) →
      (l.filterMap (fun a => (v a).toOption.map (fun row => calculate_quote row p))).length =
        l.length - 1 := by
  induction l with
  | nil =>
      intro k hk
      simp at hk
  | cons a rest ih =>
      intro k hk he hok
      cases k with
      | zero =>
          simp only [List.getElem_cons_zero] at he
          simp only [List.filterMap_cons, he, except_toOption_error, Option.map_none', List.length_cons]
          rw [filterMap_length_all_ok v p rest
            (fun j hj => by simpa using hok (j + 1) (by simpa using hj) (by omega))]
          omega
      | succ n =>
          have hk' : n < rest.length := by
            simp only [List.length_cons] at hk
            omega
          obtain ⟨row, hrow⟩ := hok 0 (by simp) (by omega)
          simp only [List.getElem_cons_zero] at hrow
          simp only [List.getElem_cons_succ] at he
          have hok' : ∀ j (hj : j < rest.length), j ≠ n → ∃ row, v rest[j] = .ok row := by
            intro j hj hne
            have h := hok (j + 1) (by simp only [List.length_cons]; omega) (by omega)
            simpa using h
          have hrest := ih n hk' he hok'
          simp only [List.filterMap_cons, hrow, except_toOption_ok, Option.map_some',
            List.length_cons, hrest]
          omega

end Tileit

namespace Tileit

/-- C6: For every batch of N records in which exactly one record at
index k fails per-record validation, run_batch returns exactly N-1
results preserving the input order of the remaining records, and exactly
one error entry referencing index k; a per-record failure is caught
inside the batch processor and never aborts or reorders the processing
of sibling records. -/
theorem c6_batch_isolation {α : Type} (validate : α → Except String Row)
    (roofer : Roofer) (records : List α) (k : ℕ) (e : String)
    (hk : k < records.length) (he : validate records[k] = .error e)
    (hok : ∀ j (hj : j < records.length), j ≠ k → ∃ row, validate records[j] = .ok row) :
    (run_batch validate roofer records).1.length = records.length - 1 ∧
    (run_batch validate roofer records).2 = [(k, e)] ∧
    (run_batch validate roofer records).1 =
      records.filterMap
        (fun a => (validate a).toOption.map (fun row => calculate_quote row roofer)) := by
  have h := run_batch_aux_one_fail validate roofer e records 0 k hk he hok
  unfold run_batch
  rw [h]
  exact ⟨filterMap_length_one_fail validate roofer e records k hk he hok, by simp, rfl⟩

def wRowA : Row :=
  { roof_area := some 1000, pitch := some 10, height_ft := some 10
    roof_material := some "asphalt".data, condition := some 50, repair := [] }

def wRowB : Row :=
  { roof_area := some 2000, pitch := some 20, height_ft := some 20
    roof_material := some "tile".data, condition := some 60, repair := [] }

def wParse : Option Row → Except String Row :=
  fun o => match o with
  | some r => .ok r
  | none => .error "malformed record"

/-- Witness for C6: a three-record batch whose middle record is
malformed yields two results and one error at index 1. -/
theorem c6_batch_isolation_witness :
    (run_batch wParse (exProfile "".data) [some wRowA, none, some wRowB]).1.length = 2 ∧
    (run_batch wParse (exProfile "".data) [some wRowA, none, some wRowB]).2 =
      [(1, "malformed record")] := by
  have h := c6_batch_isolation wParse (exProfile "".data) [some wRowA, none, some wRowB]
    1 "malformed record" (by norm_num) rfl
    (by
      intro j hj hne
      have hj3 : j < 3 := by simpa using hj
      interval_cases j
      · exact ⟨wRowA, rfl⟩
      · exact absurd rfl hne
      · exact ⟨wRowB, rfl⟩)
  exact ⟨h.1, h.2.1⟩

end Tileit
